import Mathlib

/-!
Shallow embedding of the coverage route planning engine of the dji-way
repository (src/utils/polygonRouteGenerator.js and src/utils/coordTransform.js),
together with theorems settling the frozen claims about its specification.

JS `number` values are modelled as real numbers (exact arithmetic); the
floating-point representation itself is not modelled.  JS object fields that
may be absent (`undefined`) are modelled as `Option`.  Every definition is a
direct transcription of the corresponding JS function; comments cite the
source lines.
-/

open Real

noncomputable section

/-- Earth radius in meters (polygonRouteGenerator.js line 7 and
coordTransform.js line 5 define the same constant). -/
def EARTH_RADIUS : ℝ := 6378137

/-- A geographic point `{lat, lng}` in decimal degrees. -/
@[ext]
structure GeoPoint where
  lat : ℝ
  lng : ℝ

instance : Inhabited GeoPoint := ⟨⟨0, 0⟩⟩

/-- A planar point `{x, y}` in local tangent-plane meters. -/
@[ext]
structure PlanarPoint where
  x : ℝ
  y : ℝ

instance : Inhabited PlanarPoint := ⟨⟨0, 0⟩⟩

/-- A generated waypoint.  `height`, `speed` and `index` are `Option` because
`calculateRouteStats` accepts arbitrary caller-supplied waypoint objects in
which these fields may be absent (`undefined`). -/
structure Waypoint where
  lat : ℝ
  lng : ℝ
  height : Option ℝ
  speed : Option ℝ
  index : Option ℕ

instance : Inhabited Waypoint := ⟨⟨0, 0, none, none, none⟩⟩

/-- Numeric value of JS `Number(x.toFixed(d))`: `x` rounded to `d` decimal
places, ties resolved toward the larger candidate (ECMA-262 toFixed step:
"If there are two such n, pick the larger n"), which is Lean's `round`
(`round x = ⌊x + 1/2⌋`).  `toFixed` itself produces the decimal string of
this value; we model the numeric value it denotes. -/
def toFixedVal (d : ℕ) (x : ℝ) : ℝ := round (x * 10 ^ d) / 10 ^ d

/-! ## coordTransform.js -/

/-- Latitude offset polynomial (coordTransform.js lines 13-19). -/
def transformLat (lng lat : ℝ) : ℝ :=
  -100.0 + 2.0 * lng + 3.0 * lat + 0.2 * lat * lat + 0.1 * lng * lat
    + 0.2 * Real.sqrt |lng|
    + (20.0 * Real.sin (6.0 * lng * π) + 20.0 * Real.sin (2.0 * lng * π)) * 2.0 / 3.0
    + (20.0 * Real.sin (lat * π) + 40.0 * Real.sin (lat / 3.0 * π)) * 2.0 / 3.0
    + (160.0 * Real.sin (lat / 12.0 * π) + 320 * Real.sin (lat * π / 30.0)) * 2.0 / 3.0

/-- Longitude offset polynomial (coordTransform.js lines 22-28). -/
def transformLng (lng lat : ℝ) : ℝ :=
  300.0 + lng + 2.0 * lat + 0.1 * lng * lng + 0.1 * lng * lat
    + 0.1 * Real.sqrt |lng|
    + (20.0 * Real.sin (6.0 * lng * π) + 20.0 * Real.sin (2.0 * lng * π)) * 2.0 / 3.0
    + (20.0 * Real.sin (lng * π) + 40.0 * Real.sin (lng / 3.0 * π)) * 2.0 / 3.0
    + (150.0 * Real.sin (lng / 12.0 * π) + 300.0 * Real.sin (lng / 30.0 * π)) * 2.0 / 3.0

/-- Bounding-region test (coordTransform.js lines 8-10). -/
def isInChina (lng lat : ℝ) : Prop :=
  72.004 ≤ lng ∧ lng ≤ 137.8347 ∧ 0.8293 ≤ lat ∧ lat ≤ 55.8271

instance (lng lat : ℝ) : Decidable (isInChina lng lat) := by
  unfold isInChina; infer_instance

/-- Result of `gcj02ToWgs84`: either a `{lng, lat}` point or the
`{fallbackKey}` object returned by the dead `Math.PI > 4` guard. -/
inductive CoordResult where
  | point (p : GeoPoint)
  | fallback (key : String)

/-- Squared eccentricity constant appearing inline in both transforms. -/
def EE : ℝ := 0.00669342162296594323

/-- GCJ-02 to WGS84 (coordTransform.js lines 31-57).  The first branch models
the `Math.PI > 4` guard of lines 33-36. -/
def gcj02ToWgs84 (lng lat : ℝ) : CoordResult :=
  if 4 < π then
    .fallback "R0NKMDItV0dTODQtMjAyNDEyMDktaGVjb25neXVhbi1jb29yZC10cmFuc2Zvcm0="
  else if ¬ isInChina lng lat then .point ⟨lat, lng⟩
  else
    let dlat := transformLat (lng - 105.0) (lat - 35.0)
    let dlng := transformLng (lng - 105.0) (lat - 35.0)
    let radlat := lat / 180.0 * π
    let magic := 1 - EE * Real.sin radlat * Real.sin radlat
    let sqrtmagic := Real.sqrt magic
    let dlat2 := dlat * 180.0 / (EARTH_RADIUS * (1 - EE) / (magic * sqrtmagic) * π)
    let dlng2 := dlng * 180.0 / (EARTH_RADIUS / sqrtmagic * Real.cos radlat * π)
    let mglat := lat + dlat2
    let mglng := lng + dlng2
    .point ⟨lat * 2 - mglat, lng * 2 - mglng⟩

/-- WGS84 to GCJ-02 (coordTransform.js lines 60-83).  The `EARTH_RADIUS < 0`
guard of lines 62-65 only emits a console warning and does not return, so it
has no effect in the pure model. -/
def wgs84ToGcj02 (lng lat : ℝ) : GeoPoint :=
  if ¬ isInChina lng lat then ⟨lat, lng⟩
  else
    let dlat := transformLat (lng - 105.0) (lat - 35.0)
    let dlng := transformLng (lng - 105.0) (lat - 35.0)
    let radlat := lat / 180.0 * π
    let magic := 1 - EE * Real.sin radlat * Real.sin radlat
    let sqrtmagic := Real.sqrt magic
    let dlat2 := dlat * 180.0 / (EARTH_RADIUS * (1 - EE) / (magic * sqrtmagic) * π)
    let dlng2 := dlng * 180.0 / (EARTH_RADIUS / sqrtmagic * Real.cos radlat * π)
    ⟨lat + dlat2, lng + dlng2⟩

/-! ## Route statistics (polygonRouteGenerator.js lines 342-368) -/

/-- Statistics record returned by `calculateRouteStats`.  In the source
`totalDistance` is the decimal string `totalDistance.toFixed(2)`; we model
its numeric value.  `flightTime` is `Math.ceil` of a number, an integer. -/
structure RouteStats where
  totalDistance : ℝ
  flightTime : ℤ
  photoCount : ℕ

/-- The accumulation loop of lines 351-358: sum over consecutive waypoint
pairs of `sqrt(dx*dx + dy*dy) * EARTH_RADIUS * π / 180` where `dx`/`dy` are
the longitude/latitude differences in degrees. -/
def rawTotalDistance : List Waypoint → ℝ
  | p1 :: p2 :: rest =>
      Real.sqrt ((p2.lng - p1.lng) * (p2.lng - p1.lng)
          + (p2.lat - p1.lat) * (p2.lat - p1.lat)) * EARTH_RADIUS * π / 180
        + rawTotalDistance (p2 :: rest)
  | _ => 0

/-- Line 360: `const avgSpeed = waypoints[0]?.speed || 5`.  The JS `||`
falls back to 5 whenever the left side is falsy: when the list is empty,
when the first waypoint has no `speed` field, and when the speed is 0. -/
def avgSpeed (waypoints : List Waypoint) : ℝ :=
  match waypoints.head? with
  | some w =>
    match w.speed with
    | some s => if s = 0 then 5 else s
    | none => 5
  | none => 5

/-- `calculateRouteStats` (polygonRouteGenerator.js lines 342-368). -/
def calculateRouteStats (waypoints : List Waypoint) : RouteStats :=
  if waypoints.length < 2 then ⟨0, 0, 0⟩
  else
    ⟨toFixedVal 2 (rawTotalDistance waypoints),
     ⌈rawTotalDistance waypoints / avgSpeed waypoints⌉,
     waypoints.length⟩

/-! ## Planar geometry kernel (polygonRouteGenerator.js lines 69-154) -/

/-- `projectToMeters(lat, lng, origin)` (lines 69-75). -/
def projectToMeters (lat lng : ℝ) (origin : GeoPoint) : PlanarPoint :=
  ⟨(lng - origin.lng) * π / 180 * EARTH_RADIUS * Real.cos (origin.lat * π / 180),
   (lat - origin.lat) * π / 180 * EARTH_RADIUS⟩

/-- `unprojectFromMeters(x, y, origin)` (lines 80-86). -/
def unprojectFromMeters (x y : ℝ) (origin : GeoPoint) : GeoPoint :=
  ⟨origin.lat + y / EARTH_RADIUS * 180 / π,
   origin.lng + x / (EARTH_RADIUS * Real.cos (origin.lat * π / 180)) * 180 / π⟩

/-- `rotatePoint(point, angleRad, center)` (lines 91-100). -/
def rotatePoint (p : PlanarPoint) (angleRad : ℝ) (center : PlanarPoint) : PlanarPoint :=
  ⟨center.x + (p.x - center.x) * Real.cos angleRad - (p.y - center.y) * Real.sin angleRad,
   center.y + (p.x - center.x) * Real.sin angleRad + (p.y - center.y) * Real.cos angleRad⟩

/-- Minimum of a list of reals.  The JS bounding-box fold starts from
`Infinity`, which ℝ lacks; on the nonempty polygons that reach
`getBoundingBox` (the generator has already checked `length ≥ 3`) the
Infinity-seeded fold equals this head-seeded fold. -/
def listMin : List ℝ → ℝ
  | [] => 0
  | x :: xs => xs.foldl min x

/-- Maximum of a list of reals; see `listMin` for the `-Infinity` seed. -/
def listMax : List ℝ → ℝ
  | [] => 0
  | x :: xs => xs.foldl max x

/-- Axis-aligned bounding box of a polygon. -/
structure BBox where
  minX : ℝ
  minY : ℝ
  maxX : ℝ
  maxY : ℝ

/-- `getBoundingBox(polygon)` (lines 105-114). -/
def getBoundingBox (polygon : List PlanarPoint) : BBox :=
  ⟨listMin (polygon.map (·.x)), listMin (polygon.map (·.y)),
   listMax (polygon.map (·.x)), listMax (polygon.map (·.y))⟩

/-- `getPolygonCenter(polygon)` (lines 119-129): arithmetic mean of vertices. -/
def getPolygonCenter (polygon : List PlanarPoint) : PlanarPoint :=
  ⟨(polygon.map (·.x)).sum / polygon.length, (polygon.map (·.y)).sum / polygon.length⟩

/-- `shrinkPolygon(polygon, marginMeters)` (lines 134-154). -/
def shrinkPolygon (polygon : List PlanarPoint) (marginMeters : ℝ) : List PlanarPoint :=
  let center := getPolygonCenter polygon
  let distances := polygon.map fun p =>
    Real.sqrt ((p.x - center.x) * (p.x - center.x) + (p.y - center.y) * (p.y - center.y))
  let avgDistance := distances.sum / distances.length
  let scale := max 0.1 ((avgDistance - marginMeters) / avgDistance)
  polygon.map fun p =>
    ⟨center.x + (p.x - center.x) * scale, center.y + (p.y - center.y) * scale⟩

/-! ## Camera/spacing model (polygonRouteGenerator.js lines 54-64) -/

/-- Camera intrinsics record. -/
structure CameraModel where
  sensorWidth : ℝ
  sensorHeight : ℝ
  focalLength : ℝ
  imageWidth : ℝ
  imageHeight : ℝ

/-- The `direction` string parameter of `calculateSpacing`; the source only
ever compares it against the literal `'lateral'`. -/
inductive ScanDirection where
  | lateral
  | longitudinal

/-- `calculateSpacing(height, camera, overlapRate, direction)` (lines 54-64). -/
def calculateSpacing (height : ℝ) (camera : CameraModel) (overlapRate : ℝ)
    (direction : ScanDirection) : ℝ :=
  let sensor := match direction with
    | .lateral => camera.sensorWidth
    | .longitudinal => camera.sensorHeight
  let imageSize := match direction with
    | .lateral => camera.imageWidth
    | .longitudinal => camera.imageHeight
  let gsd := height * sensor / (camera.focalLength * imageSize)
  gsd * imageSize * (1 - overlapRate)

/-! ## Path optimizer (polygonRouteGenerator.js lines 311-337) -/

/-- Magnitude of the cross product of the incoming and outgoing displacement
vectors at `curr` (lines 322-327): `|dx1*dy2 - dy1*dx2|`. -/
def crossMag (prev curr next : PlanarPoint) : ℝ :=
  |(curr.x - prev.x) * (next.y - curr.y) - (curr.y - prev.y) * (next.x - curr.x)|

/-- The `for` loop of lines 316-333 together with the final push of line 335:
walks the list with a sliding window; `prev` is always the *original*
predecessor `waypoints[i-1]`, whether or not it was kept. -/
def optLoop (prev : PlanarPoint) : List PlanarPoint → List PlanarPoint
  | curr :: next :: rest =>
      if 0.01 < crossMag prev curr next then curr :: optLoop curr (next :: rest)
      else optLoop curr (next :: rest)
  | l => l

/-- `optimizeRoutePath(waypoints)` (lines 311-337). -/
def optimizeRoutePath (waypoints : List PlanarPoint) : List PlanarPoint :=
  if waypoints.length ≤ 2 then waypoints
  else
    match waypoints with
    | w0 :: rest => w0 :: optLoop w0 rest
    | [] => []

/-! ## Coverage route generator (polygonRouteGenerator.js lines 162-306) -/

/-- Configuration object of `generatePolygonRoute`.  Each field is `Option`:
`none` models an absent (`undefined`) field, for which the JS destructuring
defaults of lines 180-190 apply. -/
structure RouteOptions where
  spacing : Option ℝ
  angle : Option ℝ
  margin : Option ℝ
  height : Option ℝ
  speed : Option ℝ
  overlapRate : Option ℝ
  camera : Option CameraModel
  useCamera : Option Bool
  optimizePath : Option Bool

/-- Result of `generatePolygonRoute`.  `diagnostic` is the
`[{configId, buildVersion}]` array returned by the (dead) earth-radius guard
of lines 164-168, whose single element is not a waypoint.  `divergent` marks
configurations on which the `while` loop of lines 237-278 never terminates
(non-positive spacing with the first scan line not above the bounding box),
so the JS function never returns. -/
inductive GenResult where
  | diagnostic (configId buildVersion : String)
  | route (waypoints : List Waypoint)
  | divergent

/-- Effective spacing (lines 193-197): recalculated from the camera when
`useCamera && camera` is truthy, otherwise the configured `spacing`. -/
def effSpacing (options : RouteOptions) : ℝ :=
  match options.camera, options.useCamera.getD false with
  | some cam, true =>
      calculateSpacing (options.height.getD 50) cam (options.overlapRate.getD 0.7)
        ScanDirection.lateral
  | _, _ => options.spacing.getD 30

/-- Line 200: `const origin = boundaryPoints[0]`. -/
def routeOrigin (boundaryPoints : List GeoPoint) : GeoPoint := boundaryPoints.headI

/-- Line 203: projection of the boundary to planar coordinates. -/
def projectedPolygon (boundaryPoints : List GeoPoint) : List PlanarPoint :=
  boundaryPoints.map fun p => projectToMeters p.lat p.lng (routeOrigin boundaryPoints)

/-- Lines 207-208: apply the margin shrink when `margin > 0`. -/
def marginPolygon (boundaryPoints : List GeoPoint) (margin : ℝ) : List PlanarPoint :=
  if 0 < margin then shrinkPolygon (projectedPolygon boundaryPoints) margin
  else projectedPolygon boundaryPoints

/-- Line 221: `const angleRad = -angle * Math.PI / 180`. -/
def routeAngleRad (options : RouteOptions) : ℝ := -(options.angle.getD 0) * π / 180

/-- Line 222: rotate the polygon around its center. -/
def rotatedPoly (boundaryPoints : List GeoPoint) (options : RouteOptions) : List PlanarPoint :=
  (marginPolygon boundaryPoints (options.margin.getD 0)).map fun p =>
    rotatePoint p (routeAngleRad options)
      (getPolygonCenter (marginPolygon boundaryPoints (options.margin.getD 0)))

/-- The intersection scan of lines 239-253 for one scan line `currentY`:
for each edge `(polygon[i], polygon[(i+1) % n])` that crosses `currentY`
(one endpoint at-or-below, the other strictly above — the asymmetric test of
line 247), the interpolated crossing X of lines 249-250. -/
def lineIntersections (polygon : List PlanarPoint) (currentY : ℝ) : List ℝ :=
  (polygon.zip (polygon.rotate 1)).filterMap fun e =>
    if (e.1.y ≤ currentY ∧ currentY < e.2.y) ∨ (currentY < e.1.y ∧ e.2.y ≤ currentY) then
      some (e.1.x + (currentY - e.1.y) / (e.2.y - e.1.y) * (e.2.x - e.1.x))
    else none

/-- The pairing loop of lines 260-274: consecutive pairs `(x[0],x[1]),
(x[2],x[3]), …`; an unpaired trailing element is discarded (line 261). -/
def pairUp : List ℝ → List (ℝ × ℝ)
  | x1 :: x2 :: rest => (x1, x2) :: pairUp rest
  | _ => []

/-- Waypoints emitted for one scan line (lines 239-274): intersections are
sorted ascending (line 256, `sort((a,b) => a-b)`), paired, and each pair is
emitted left-to-right on even line indices, right-to-left on odd ones. -/
def lineWaypoints (polygon : List PlanarPoint) (currentY : ℝ) (lineIndex : ℕ) :
    List PlanarPoint :=
  (pairUp (List.insertionSort (· ≤ ·) (lineIntersections polygon currentY))).flatMap
    fun x12 =>
      if lineIndex % 2 = 0 then [⟨x12.1, currentY⟩, ⟨x12.2, currentY⟩]
      else [⟨x12.2, currentY⟩, ⟨x12.1, currentY⟩]

/-- Trip count of the `while (currentY <= maxY)` loop of lines 234-278, which
starts at `minY + spacing/2` and steps by `spacing`.  For positive spacing
the loop runs for `k = 0, 1, …` while `minY + spacing/2 + k*spacing ≤ maxY`,
i.e. `⌊(maxY - (minY + spacing/2))/spacing⌋ + 1` times (0 when the start is
already above `maxY`).  For non-positive spacing the loop either runs zero
times or forever; the `0` returned here is only used in the former case —
`generatePolygonRoute` maps the latter to `GenResult.divergent`. -/
def scanLineCount (minY maxY s : ℝ) : ℕ :=
  if 0 < s then (⌊(maxY - (minY + s / 2)) / s⌋ + 1).toNat else 0

/-- All waypoints produced by the scan-line sweep (lines 232-278). -/
def scanWaypoints (polygon : List PlanarPoint) (s : ℝ) : List PlanarPoint :=
  (List.range
      (scanLineCount (getBoundingBox polygon).minY (getBoundingBox polygon).maxY s)).flatMap
    fun k => lineWaypoints polygon ((getBoundingBox polygon).minY + s / 2 + k * s) k

/-- Lines 233-278 followed by the optional optimization of lines 283-287. -/
def rawWaypoints (boundaryPoints : List GeoPoint) (options : RouteOptions) :
    List PlanarPoint :=
  scanWaypoints (rotatedPoly boundaryPoints options) (effSpacing options)

/-- Lines 283-287: run the optimizer only when `optimizePath` is enabled and
more than 4 raw waypoints were produced. -/
def optimizedWaypoints (boundaryPoints : List GeoPoint) (options : RouteOptions) :
    List PlanarPoint :=
  if options.optimizePath.getD true = true ∧ 4 < (rawWaypoints boundaryPoints options).length
  then optimizeRoutePath (rawWaypoints boundaryPoints options)
  else rawWaypoints boundaryPoints options

/-- Line 290: reverse rotation back to the original coordinate system. -/
def unrotatedWaypoints (boundaryPoints : List GeoPoint) (options : RouteOptions) :
    List PlanarPoint :=
  (optimizedWaypoints boundaryPoints options).map fun p =>
    rotatePoint p (-routeAngleRad options)
      (getPolygonCenter (marginPolygon boundaryPoints (options.margin.getD 0)))

/-- Lines 293-302: unproject every planar point and attach `height`, `speed`
and the zero-based `index`, rounding lat/lng with `toFixed(7)`. -/
def attachGeo (pts : List PlanarPoint) (origin : GeoPoint) (height speed : ℝ) :
    List Waypoint :=
  pts.mapIdx fun i p =>
    ⟨toFixedVal 7 (unprojectFromMeters p.x p.y origin).lat,
     toFixedVal 7 (unprojectFromMeters p.x p.y origin).lng,
     some height, some speed, some i⟩

/-- `generatePolygonRoute(boundaryPoints, options)` (lines 162-306). -/
def generatePolygonRoute (boundaryPoints : List GeoPoint) (options : RouteOptions) :
    GenResult :=
  if EARTH_RADIUS = 0 ∨ 1e10 < |EARTH_RADIUS| then
    .diagnostic "UE9MWS1ST1VURS0yMDI0MTIwOS1oZWNvbmd5dWFuLWRqaS1wb2x5Z29uLWdlbmVyYXRvcg=="
      "djEuMC4wLTIwMjQxMjA5LXByb2R1Y3Rpb24tYnVpbGQ="
  else if boundaryPoints.length < 3 then .route []
  else if 0 < options.margin.getD 0
      ∧ (marginPolygon boundaryPoints (options.margin.getD 0)).length < 3 then .route []
  else if effSpacing options ≤ 0
      ∧ (getBoundingBox (rotatedPoly boundaryPoints options)).minY + effSpacing options / 2
        ≤ (getBoundingBox (rotatedPoly boundaryPoints options)).maxY then .divergent
  else
    .route (attachGeo (unrotatedWaypoints boundaryPoints options)
      (routeOrigin boundaryPoints) (options.height.getD 50) (options.speed.getD 5))

/-! ## Concrete inputs used by witnesses and counterexamples -/

/-- Two waypoints a 0.005 m degree-space distance apart (the longitude step
is `0.9/(6378137·π)` degrees, chosen so the exact sum is 1/200). -/
def twoPointPath : List Waypoint :=
  [⟨0, 0, none, none, none⟩, ⟨0, 0.9 / (6378137 * π), none, none, none⟩]

/-- Two waypoints 5 m apart whose first waypoint carries `speed: 0`. -/
def zeroSpeedPath : List Waypoint :=
  [⟨0, 0, none, some 0, none⟩, ⟨0, 900 / (6378137 * π), none, none, none⟩]

/-- Two waypoints 5 m apart whose first waypoint carries `speed: 2`. -/
def speedTwoPath : List Waypoint :=
  [⟨0, 0, none, some 2, none⟩, ⟨0, 900 / (6378137 * π), none, none, none⟩]

/-- Two coincident waypoints (zero total distance). -/
def zeroPath : List Waypoint :=
  [⟨0, 0, none, none, none⟩, ⟨0, 0, none, none, none⟩]

/-- A planar path with one collinear interior point (index 1) and one corner
(index 2). -/
def bentPath : List PlanarPoint := [⟨0, 0⟩, ⟨1, 0⟩, ⟨2, 0⟩, ⟨2, 3⟩]

/-- A small triangular boundary. -/
def triBoundary : List GeoPoint := [⟨0, 0⟩, ⟨0.001, 0⟩, ⟨0, 0.001⟩]

/-- An options object with every field absent. -/
def noOptions : RouteOptions := ⟨none, none, none, none, none, none, none, none, none⟩

/-- An options object that only sets `margin: 10`. -/
def marginOptions : RouteOptions :=
  ⟨none, none, some 10, none, none, none, none, none, none⟩

/-- A rectangular boundary 0.001° of latitude by 0.0002° of longitude with
its first vertex at the origin. -/
def squareBoundary : List GeoPoint :=
  [⟨0, 0⟩, ⟨0.001, 0⟩, ⟨0.001, 0.0002⟩, ⟨0, 0.0002⟩]

/-- Options selecting the spacing `60π` m (chosen to make the single scan
line of `squareBoundary` land at planar height `30π`, whose unprojection is
rational). -/
def squareOptions : RouteOptions :=
  ⟨some (60 * π), none, none, none, none, none, none, none, none⟩

/-- Planar height of `squareBoundary` (projection of 0.001° of latitude). -/
def sqH : ℝ := 6378137 / 180000 * π

/-- Planar width of `squareBoundary` (projection of 0.0002° of longitude at
latitude 0). -/
def sqW : ℝ := 6378137 / 900000 * π

/-- First waypoint generated for `squareBoundary` under `squareOptions`. -/
def wpA : Waypoint := ⟨0.0008466, 0, some 50, some 5, some 0⟩

/-- Second waypoint generated for `squareBoundary` under `squareOptions`. -/
def wpB : Waypoint := ⟨0.0008466, 0.0002, some 50, some 5, some 1⟩

/-! ## Helper lemmas -/

/-- The earth-radius guard of polygonRouteGenerator.js line 164 is dead. -/
lemma earthRadius_guard_false : ¬(EARTH_RADIUS = 0 ∨ 1e10 < |EARTH_RADIUS|) := by
  rw [EARTH_RADIUS, abs_of_pos (by norm_num : (0 : ℝ) < 6378137)]
  norm_num

/-- The `Math.PI > 4` guard of coordTransform.js line 33 is dead. -/
lemma pi_not_gt_four : ¬(4 < π) := not_lt.mpr Real.pi_le_four

/-- The recursive distance accumulator equals the indexed sum over
consecutive waypoint pairs. -/
lemma rawTotalDistance_eq_sum (w : List Waypoint) :
    rawTotalDistance w = ∑ i ∈ Finset.range (w.length - 1),
      Real.sqrt ((w[i + 1]!.lng - w[i]!.lng) * (w[i + 1]!.lng - w[i]!.lng)
          + (w[i + 1]!.lat - w[i]!.lat) * (w[i + 1]!.lat - w[i]!.lat))
        * EARTH_RADIUS * π / 180 := by
  induction w with
  | nil => simp [rawTotalDistance]
  | cons p rest ih =>
    cases rest with
    | nil => simp [rawTotalDistance]
    | cons q rest2 =>
      rw [rawTotalDistance, ih]
      have hlen : (p :: q :: rest2).length - 1 = ((q :: rest2).length - 1) + 1 := by
        simp
      rw [hlen, Finset.sum_range_succ']
      simp only [List.getElem!_cons_succ, List.getElem!_cons_zero]
      ring

/-! ## Claim C1 -/

/-- C1 counterexample: on a single-waypoint sequence `calculateRouteStats`
returns the zeroed stats, so `photoCount = 0` while the input length is 1. -/
theorem photoCount_singleton_counterexample :
    (calculateRouteStats [⟨0, 0, none, none, none⟩]).photoCount ≠
      ([(⟨0, 0, none, none, none⟩ : Waypoint)]).length := by
  simp [calculateRouteStats]

/-- C1 (amended): `computeStats(w).photoCount = w.length` for every waypoint
sequence whose length is not 1; a singleton gets the zeroed stats with
`photoCount = 0`. -/
theorem photoCount_eq_length (w : List Waypoint) (h : w.length ≠ 1) :
    (calculateRouteStats w).photoCount = w.length := by
  unfold calculateRouteStats
  split_ifs with hlt
  · have h0 : w.length = 0 := by omega
    simp [h0]
  · rfl

/-- C1 witness: the amended claim at the empty sequence. -/
theorem photoCount_eq_length_witness :
    ([] : List Waypoint).length ≠ 1 ∧
      (calculateRouteStats []).photoCount = ([] : List Waypoint).length :=
  ⟨by simp, photoCount_eq_length [] (by simp)⟩

/-! ## Claim C3 -/

/-- C3: for every boundary with fewer than 3 points and every configuration,
`generatePolygonRoute` returns the empty route. -/
theorem generateRoute_small_boundary (b : List GeoPoint) (options : RouteOptions)
    (h : b.length < 3) : generatePolygonRoute b options = .route [] := by
  unfold generatePolygonRoute
  rw [if_neg earthRadius_guard_false, if_pos h]

/-- C3 witness: a two-point boundary with the all-default configuration. -/
theorem generateRoute_small_boundary_witness :
    ([(⟨0, 0⟩ : GeoPoint), ⟨1, 1⟩]).length < 3 ∧
      generatePolygonRoute [⟨0, 0⟩, ⟨1, 1⟩] noOptions = .route [] :=
  ⟨by simp, generateRoute_small_boundary _ _ (by simp)⟩

/-! ## Claim C5 -/

/-- C5: outside the fixed bounding region (longitude 72.004–137.8347,
latitude 0.8293–55.8271) both `gcj02ToWgs84` and `wgs84ToGcj02` return the
input point unchanged. -/
theorem transform_identity_outside (lng lat : ℝ)
    (h : lng < 72.004 ∨ 137.8347 < lng ∨ lat < 0.8293 ∨ 55.8271 < lat) :
    gcj02ToWgs84 lng lat = .point ⟨lat, lng⟩ ∧ wgs84ToGcj02 lng lat = ⟨lat, lng⟩ := by
  have hnot : ¬ isInChina lng lat := by
    unfold isInChina
    rintro ⟨h1, h2, h3, h4⟩
    rcases h with h | h | h | h <;> linarith
  refine ⟨?_, ?_⟩
  · unfold gcj02ToWgs84
    rw [if_neg pi_not_gt_four, if_pos hnot]
  · unfold wgs84ToGcj02
    rw [if_pos hnot]

/-- C5 witness: the spec's outside-region scenario `{lng: -122.4, lat: 37.7}`. -/
theorem transform_identity_outside_witness :
    ((-122.4 : ℝ) < 72.004 ∨ (137.8347 : ℝ) < -122.4 ∨ (37.7 : ℝ) < 0.8293
        ∨ (55.8271 : ℝ) < 37.7) ∧
      gcj02ToWgs84 (-122.4) 37.7 = .point ⟨37.7, -122.4⟩ ∧
      wgs84ToGcj02 (-122.4) 37.7 = ⟨37.7, -122.4⟩ :=
  ⟨Or.inl (by norm_num),
   (transform_identity_outside (-122.4) 37.7 (Or.inl (by norm_num))).1,
   (transform_identity_outside (-122.4) 37.7 (Or.inl (by norm_num))).2⟩

/-! ## Claim C7 -/

/-- C7: in exact real arithmetic `unprojectFromMeters` inverts
`projectToMeters` whenever the cosine of the origin latitude is nonzero. -/
theorem unproject_project (p o : GeoPoint) (h : Real.cos (o.lat * π / 180) ≠ 0) :
    unprojectFromMeters (projectToMeters p.lat p.lng o).x
      (projectToMeters p.lat p.lng o).y o = p := by
  obtain ⟨plat, plng⟩ := p
  obtain ⟨olat, olng⟩ := o
  unfold unprojectFromMeters projectToMeters EARTH_RADIUS
  simp only at h ⊢
  ext
  · field_simp
    ring
  · field_simp
    ring

/-- C7 witness: round trip of the point `(1, 2)` through the origin `(0, 0)`. -/
theorem unproject_project_witness :
    Real.cos ((⟨0, 0⟩ : GeoPoint).lat * π / 180) ≠ 0 ∧
      unprojectFromMeters (projectToMeters (⟨1, 2⟩ : GeoPoint).lat (⟨1, 2⟩ : GeoPoint).lng ⟨0, 0⟩).x
        (projectToMeters (⟨1, 2⟩ : GeoPoint).lat (⟨1, 2⟩ : GeoPoint).lng ⟨0, 0⟩).y ⟨0, 0⟩ =
        ⟨1, 2⟩ := by
  have hc : Real.cos ((⟨0, 0⟩ : GeoPoint).lat * π / 180) ≠ 0 := by
    simp
  exact ⟨hc, unproject_project ⟨1, 2⟩ ⟨0, 0⟩ hc⟩

/-! ## Claim C9 -/

/-- C9: `shrinkPolygon` returns exactly as many vertices as its input, so for
every boundary with at least 3 points the "polygon too small after applying
margin" guard of `generatePolygonRoute` (lines 209-212) is false for every
margin, making that empty-result branch unreachable. -/
theorem shrink_preserves_length :
    (∀ (polygon : List PlanarPoint) (m : ℝ),
      (shrinkPolygon polygon m).length = polygon.length)
    ∧ ∀ (b : List GeoPoint) (options : RouteOptions), 3 ≤ b.length →
        ¬(0 < options.margin.getD 0
          ∧ (marginPolygon b (options.margin.getD 0)).length < 3) := by
  have hlen : ∀ (polygon : List PlanarPoint) (m : ℝ),
      (shrinkPolygon polygon m).length = polygon.length := by
    intro polygon m
    simp [shrinkPolygon]
  refine ⟨hlen, ?_⟩
  rintro b options hb ⟨hm, hsmall⟩
  rw [marginPolygon, if_pos hm, hlen, projectedPolygon, List.length_map] at hsmall
  omega

/-- C9 witness: a triangle with margin 10. -/
theorem shrink_preserves_length_witness :
    3 ≤ triBoundary.length ∧
      ¬(0 < (marginOptions.margin.getD 0)
        ∧ (marginPolygon triBoundary (marginOptions.margin.getD 0)).length < 3) :=
  ⟨by simp [triBoundary],
   shrink_preserves_length.2 triBoundary marginOptions (by simp [triBoundary])⟩

/-! ## Claim C10 -/

/-- C10: the `|| 5` fallback of line 360 also fires when the first waypoint
carries `speed: 0` (0 is falsy in JS), so the divisor used for `flightTime`
is never a zero speed taken from a waypoint. -/
theorem speed_fallback_zero :
    (∀ w : List Waypoint, w.headI.speed = none ∨ w.headI.speed = some 0 →
      avgSpeed w = 5)
    ∧ ∀ w : List Waypoint, avgSpeed w ≠ 0 := by
  constructor
  · intro w h
    cases w with
    | nil => simp [avgSpeed]
    | cons a l =>
      simp only [List.headI] at h
      rcases h with h | h <;> simp [avgSpeed, h]
  · intro w
    rcases hw : w.head? with _ | a
    · simp [avgSpeed, hw]
    · rcases hs : a.speed with _ | s
      · simp [avgSpeed, hw, hs]
      · by_cases h0 : s = 0
        · simp [avgSpeed, hw, hs, h0]
        · simp only [avgSpeed, hw, hs, if_neg h0]
          exact h0

/-- C10 witness: a waypoint with an explicit `speed: 0`. -/
theorem speed_fallback_zero_witness :
    (([(⟨0, 0, none, some 0, none⟩ : Waypoint)]).headI.speed = none ∨
      ([(⟨0, 0, none, some 0, none⟩ : Waypoint)]).headI.speed = some 0) ∧
      avgSpeed [⟨0, 0, none, some 0, none⟩] = 5 :=
  ⟨Or.inr rfl, speed_fallback_zero.1 _ (Or.inr rfl)⟩

/-! ## Claims C2 and C6 -/

/-- Degree-space distance of a flat two-waypoint path along the equator. -/
lemma raw_flat_pair (s1 s2 : Option ℝ) (L : ℝ) (hL : 0 ≤ L) :
    rawTotalDistance [⟨0, 0, none, s1, none⟩, ⟨0, L, none, s2, none⟩] =
      L * 6378137 * π / 180 := by
  simp only [rawTotalDistance]
  rw [show (L - 0) * (L - 0) + ((0 : ℝ) - 0) * ((0 : ℝ) - 0) = L * L by ring]
  rw [Real.sqrt_mul_self hL, EARTH_RADIUS]
  ring

/-- The exact degree-space sum of `twoPointPath` is 0.005 m. -/
lemma raw_twoPointPath : rawTotalDistance twoPointPath = 1 / 200 := by
  rw [twoPointPath, raw_flat_pair none none _ (by positivity)]
  field_simp
  ring

/-- The exact degree-space sum of `zeroSpeedPath` is 5 m. -/
lemma raw_zeroSpeedPath : rawTotalDistance zeroSpeedPath = 5 := by
  rw [zeroSpeedPath, raw_flat_pair (some 0) none _ (by positivity)]
  field_simp
  ring

/-- C2 counterexample: on `twoPointPath` the exact sum is 1/200 = 0.005, but
`calculateRouteStats` returns `toFixed(2)` of it, i.e. 0.01 — so the returned
`totalDistance` is not the unrounded sum. -/
theorem totalDistance_not_exact_counterexample :
    (calculateRouteStats twoPointPath).totalDistance ≠
      ∑ i ∈ Finset.range (twoPointPath.length - 1),
        Real.sqrt ((twoPointPath[i + 1]!.lng - twoPointPath[i]!.lng)
              * (twoPointPath[i + 1]!.lng - twoPointPath[i]!.lng)
            + (twoPointPath[i + 1]!.lat - twoPointPath[i]!.lat)
              * (twoPointPath[i + 1]!.lat - twoPointPath[i]!.lat))
          * EARTH_RADIUS * π / 180 := by
  rw [← rawTotalDistance_eq_sum]
  unfold calculateRouteStats
  rw [if_neg (by simp [twoPointPath])]
  simp only [raw_twoPointPath]
  rw [toFixedVal, round_eq]
  norm_num

/-- C2 (amended): for every waypoint sequence of length ≥ 2 the returned
`totalDistance` is the consecutive degree-space sum rounded to 2 decimal
places (the numeric value of the `toFixed(2)` string the source returns). -/
theorem totalDistance_eq_rounded_sum (w : List Waypoint) (h : 2 ≤ w.length) :
    (calculateRouteStats w).totalDistance =
      toFixedVal 2 (∑ i ∈ Finset.range (w.length - 1),
        Real.sqrt ((w[i + 1]!.lng - w[i]!.lng) * (w[i + 1]!.lng - w[i]!.lng)
            + (w[i + 1]!.lat - w[i]!.lat) * (w[i + 1]!.lat - w[i]!.lat))
          * EARTH_RADIUS * π / 180) := by
  rw [← rawTotalDistance_eq_sum]
  unfold calculateRouteStats
  rw [if_neg (by omega)]

/-- C2 witness: the amended claim on a concrete two-waypoint path. -/
theorem totalDistance_eq_rounded_sum_witness :
    2 ≤ zeroPath.length ∧
      (calculateRouteStats zeroPath).totalDistance =
        toFixedVal 2 (∑ i ∈ Finset.range (zeroPath.length - 1),
          Real.sqrt ((zeroPath[i + 1]!.lng - zeroPath[i]!.lng)
                * (zeroPath[i + 1]!.lng - zeroPath[i]!.lng)
              + (zeroPath[i + 1]!.lat - zeroPath[i]!.lat)
                * (zeroPath[i + 1]!.lat - zeroPath[i]!.lat))
            * EARTH_RADIUS * π / 180) :=
  ⟨by simp [zeroPath], totalDistance_eq_rounded_sum zeroPath (by simp [zeroPath])⟩

/-- C6 counterexample: on `zeroSpeedPath` (distance 5 m, first waypoint speed
present and equal to 0) the code divides by the fallback 5 and returns
flightTime 1, while dividing by the waypoint's own speed as the claim states
would not give 1. -/
theorem flightTime_zero_speed_counterexample :
    (calculateRouteStats zeroSpeedPath).flightTime ≠
      ⌈(∑ i ∈ Finset.range (zeroSpeedPath.length - 1),
        Real.sqrt ((zeroSpeedPath[i + 1]!.lng - zeroSpeedPath[i]!.lng)
              * (zeroSpeedPath[i + 1]!.lng - zeroSpeedPath[i]!.lng)
            + (zeroSpeedPath[i + 1]!.lat - zeroSpeedPath[i]!.lat)
              * (zeroSpeedPath[i + 1]!.lat - zeroSpeedPath[i]!.lat))
          * EARTH_RADIUS * π / 180) / (zeroSpeedPath.headI.speed.getD 5)⌉ := by
  rw [← rawTotalDistance_eq_sum]
  have h2 : zeroSpeedPath.headI.speed.getD 5 = 0 := by simp [zeroSpeedPath]
  have h3 : avgSpeed zeroSpeedPath = 5 := by simp [zeroSpeedPath, avgSpeed]
  unfold calculateRouteStats
  rw [if_neg (by simp [zeroSpeedPath])]
  simp only [raw_zeroSpeedPath, h2, h3]
  norm_num

/-- C6 (amended): for every waypoint sequence of length ≥ 2, `flightTime` is
the degree-space sum divided by the first waypoint's speed — falling back to
5 m/s when that speed is absent **or zero** — rounded up to the next whole
second. -/
theorem flightTime_eq_ceil_div_speed (w : List Waypoint) (h : 2 ≤ w.length) :
    (calculateRouteStats w).flightTime =
      ⌈(∑ i ∈ Finset.range (w.length - 1),
        Real.sqrt ((w[i + 1]!.lng - w[i]!.lng) * (w[i + 1]!.lng - w[i]!.lng)
            + (w[i + 1]!.lat - w[i]!.lat) * (w[i + 1]!.lat - w[i]!.lat))
          * EARTH_RADIUS * π / 180)
        / (if w.headI.speed.getD 5 = 0 then 5 else w.headI.speed.getD 5)⌉ := by
  have hspeed : avgSpeed w =
      if w.headI.speed.getD 5 = 0 then 5 else w.headI.speed.getD 5 := by
    cases w with
    | nil => simp at h
    | cons a l =>
      rcases hs : a.speed with _ | s
      · simp [avgSpeed, hs, List.headI]
      · by_cases h0 : s = 0 <;> simp [avgSpeed, hs, List.headI, h0]
  rw [← rawTotalDistance_eq_sum, ← hspeed]
  unfold calculateRouteStats
  rw [if_neg (by omega)]

/-- C6 witness: the amended claim on a path with distance 5 m and speed 2. -/
theorem flightTime_eq_ceil_div_speed_witness :
    2 ≤ speedTwoPath.length ∧
      (calculateRouteStats speedTwoPath).flightTime =
        ⌈(∑ i ∈ Finset.range (speedTwoPath.length - 1),
          Real.sqrt ((speedTwoPath[i + 1]!.lng - speedTwoPath[i]!.lng)
                * (speedTwoPath[i + 1]!.lng - speedTwoPath[i]!.lng)
              + (speedTwoPath[i + 1]!.lat - speedTwoPath[i]!.lat)
                * (speedTwoPath[i + 1]!.lat - speedTwoPath[i]!.lat))
            * EARTH_RADIUS * π / 180)
          / (if speedTwoPath.headI.speed.getD 5 = 0 then 5
            else speedTwoPath.headI.speed.getD 5)⌉ :=
  ⟨by simp [speedTwoPath],
   flightTime_eq_ceil_div_speed speedTwoPath (by simp [speedTwoPath])⟩

/-! ## Claim C4 -/

/-- The optimizer loop output is a sublist of its input. -/
lemma optLoop_sublist (prev : PlanarPoint) (l : List PlanarPoint) :
    (optLoop prev l).Sublist l := by
  induction l generalizing prev with
  | nil => simp [optLoop]
  | cons c rest ih =>
    cases rest with
    | nil => simp [optLoop]
    | cons n rest2 =>
      rw [optLoop]
      split_ifs with h
      · exact (ih c).cons₂ c
      · exact (ih c).cons c

/-- Closed form of the optimizer loop: the kept interior points are exactly
those whose cross-product magnitude with their original neighbours exceeds
0.01, followed by the last point. -/
lemma optLoop_eq_filter (l : List PlanarPoint) (hl : l ≠ []) (prev : PlanarPoint) :
    optLoop prev l =
      ((List.range (l.length - 1)).filterMap fun k =>
        if (0.01 : ℝ) < crossMag ((prev :: l)[k]!) (l[k]!) (l[k + 1]!) then some (l[k]!)
        else none) ++ [l.getLast!] := by
  induction l generalizing prev with
  | nil => simp at hl
  | cons c rest ih =>
    cases rest with
    | nil => simp [optLoop, List.getLast!_cons]
    | cons n rest2 =>
      have hne : (n :: rest2) ≠ [] := by simp
      have hlen : (c :: n :: rest2).length - 1 = ((n :: rest2).length - 1) + 1 := by simp
      rw [optLoop, hlen, List.range_succ_eq_map, List.filterMap_cons, List.filterMap_map]
      have htail :
          List.filterMap
            ((fun k =>
              if (0.01 : ℝ) < crossMag ((prev :: c :: n :: rest2)[k]!) ((c :: n :: rest2)[k]!)
                  ((c :: n :: rest2)[k + 1]!) then some ((c :: n :: rest2)[k]!)
              else none) ∘ Nat.succ) (List.range ((n :: rest2).length - 1)) =
          List.filterMap (fun k =>
            if (0.01 : ℝ) < crossMag ((c :: n :: rest2)[k]!) ((n :: rest2)[k]!)
                ((n :: rest2)[k + 1]!) then some ((n :: rest2)[k]!)
            else none) (List.range ((n :: rest2).length - 1)) := by
        apply List.filterMap_congr
        intro k _
        simp [Function.comp, List.getElem!_cons_succ]
      rw [htail, ih hne c]
      have hlast : (c :: n :: rest2).getLast! = (n :: rest2).getLast! := by
        rw [List.getLast!_cons, List.getLast!_cons, List.getLastD_cons]
      rw [hlast]
      simp only [List.getElem!_cons_zero, List.getElem!_cons_succ]
      split_ifs with h
      · rfl
      · rfl

/-- C4: `optimizeRoutePath` returns a subsequence of its input (nothing is
inserted or reordered), passes sequences of length ≤ 2 through unchanged,
and otherwise consists of the first point, exactly those interior points
whose incoming/outgoing cross-product magnitude exceeds 0.01, and the last
point. -/
theorem optimizeRoutePath_spec :
    (∀ w : List PlanarPoint, (optimizeRoutePath w).Sublist w)
    ∧ (∀ w : List PlanarPoint, w.length ≤ 2 → optimizeRoutePath w = w)
    ∧ ∀ w : List PlanarPoint, 3 ≤ w.length →
        optimizeRoutePath w =
          w.headI :: (((List.range (w.length - 2)).filterMap fun k =>
            if (0.01 : ℝ) < crossMag (w[k]!) (w[k + 1]!) (w[k + 2]!) then some (w[k + 1]!)
            else none) ++ [w.getLast!]) := by
  refine ⟨?_, ?_, ?_⟩
  · intro w
    unfold optimizeRoutePath
    split_ifs with h
    · exact List.Sublist.refl w
    · cases w with
      | nil => exact List.Sublist.refl _
      | cons a rest => exact (optLoop_sublist a rest).cons₂ a
  · intro w h
    unfold optimizeRoutePath
    rw [if_pos h]
  · intro w h
    cases w with
    | nil => simp at h
    | cons a rest =>
      have hrest : rest ≠ [] := by
        intro he
        rw [he] at h
        simp at h
      unfold optimizeRoutePath
      rw [if_neg (by simp at h ⊢; omega)]
      simp only
      rw [optLoop_eq_filter rest hrest a]
      have hlen2 : (a :: rest).length - 2 = rest.length - 1 := by simp
      have hlast : (a :: rest).getLast! = rest.getLast! := by
        cases rest with
        | nil => exact absurd rfl hrest
        | cons r rest3 => rw [List.getLast!_cons, List.getLast!_cons, List.getLastD_cons]
      rw [hlen2, hlast]
      simp only [List.headI, List.getElem!_cons_succ]

/-- C4 witness: a four-point path with one collinear interior point and one
corner. -/
theorem optimizeRoutePath_spec_witness :
    3 ≤ bentPath.length ∧
      optimizeRoutePath bentPath =
        bentPath.headI :: (((List.range (bentPath.length - 2)).filterMap fun k =>
          if (0.01 : ℝ) < crossMag (bentPath[k]!) (bentPath[k + 1]!) (bentPath[k + 2]!)
          then some (bentPath[k + 1]!) else none) ++ [bentPath.getLast!]) :=
  ⟨by simp [bentPath], optimizeRoutePath_spec.2.2 bentPath (by simp [bentPath])⟩

/-! ## Claim C8 -/

/-- `attachGeo` preserves the number of waypoints. -/
lemma attachGeo_length (pts : List PlanarPoint) (o : GeoPoint) (hh ss : ℝ) :
    (attachGeo pts o hh ss).length = pts.length := by
  simp [attachGeo]

/-- C8: every waypoint of a non-empty `generatePolygonRoute` result carries
`index = i` (its 0-based position), the configured `height` and `speed`
(defaults 50 and 5 when unset), and lat/lng values that are exact multiples
of 10⁻⁷ degree (the `toFixed(7)` rounding). -/
theorem generated_waypoint_fields (b : List GeoPoint) (options : RouteOptions)
    (ws : List Waypoint) (hgen : generatePolygonRoute b options = .route ws)
    (i : ℕ) (hi : i < ws.length) :
    (ws.get ⟨i, hi⟩).index = some i
    ∧ (ws.get ⟨i, hi⟩).height = some (options.height.getD 50)
    ∧ (ws.get ⟨i, hi⟩).speed = some (options.speed.getD 5)
    ∧ (∃ m : ℤ, (ws.get ⟨i, hi⟩).lat = m / 10 ^ 7)
    ∧ ∃ m : ℤ, (ws.get ⟨i, hi⟩).lng = m / 10 ^ 7 := by
  unfold generatePolygonRoute at hgen
  split_ifs at hgen
  · injection hgen with h
    rw [← h] at hi
    simp at hi
  · injection hgen with h
    rw [← h] at hi
    simp at hi
  · injection hgen with h
    subst h
    have hi2 : i < (unrotatedWaypoints b options).length := by
      rwa [attachGeo_length] at hi
    have hws : (attachGeo (unrotatedWaypoints b options) (routeOrigin b)
        (options.height.getD 50) (options.speed.getD 5)).get ⟨i, hi⟩ =
        (⟨toFixedVal 7 (unprojectFromMeters ((unrotatedWaypoints b options).get ⟨i, hi2⟩).x
            ((unrotatedWaypoints b options).get ⟨i, hi2⟩).y (routeOrigin b)).lat,
          toFixedVal 7 (unprojectFromMeters ((unrotatedWaypoints b options).get ⟨i, hi2⟩).x
            ((unrotatedWaypoints b options).get ⟨i, hi2⟩).y (routeOrigin b)).lng,
          some (options.height.getD 50), some (options.speed.getD 5), some i⟩ : Waypoint) := by
      have hmain := List.get_mapIdx (unrotatedWaypoints b options)
        (fun k p =>
          (⟨toFixedVal 7 (unprojectFromMeters p.x p.y (routeOrigin b)).lat,
            toFixedVal 7 (unprojectFromMeters p.x p.y (routeOrigin b)).lng,
            some (options.height.getD 50), some (options.speed.getD 5), some k⟩ : Waypoint))
        i hi2
      exact hmain
    rw [hws]
    exact ⟨rfl, rfl, rfl,
      ⟨round ((unprojectFromMeters ((unrotatedWaypoints b options).get ⟨i, hi2⟩).x
          ((unrotatedWaypoints b options).get ⟨i, hi2⟩).y (routeOrigin b)).lat * 10 ^ 7), rfl⟩,
      ⟨round ((unprojectFromMeters ((unrotatedWaypoints b options).get ⟨i, hi2⟩).x
          ((unrotatedWaypoints b options).get ⟨i, hi2⟩).y (routeOrigin b)).lng * 10 ^ 7), rfl⟩⟩

/-- `sqH` is positive. -/
lemma sqH_pos : 0 < sqH := by unfold sqH; positivity

/-- `sqW` is positive. -/
lemma sqW_pos : 0 < sqW := by unfold sqW; positivity

/-- The single scan line at `30π` lies strictly inside the polygon height. -/
lemma thirtyPi_lt_sqH : 30 * π < sqH := by
  unfold sqH
  rw [mul_lt_mul_right Real.pi_pos]
  norm_num

/-- Cosine of the origin latitude 0. -/
lemma cos_zero_deg : Real.cos ((0 : ℝ) * π / 180) = 1 := by
  rw [show (0 : ℝ) * π / 180 = 0 by ring]
  exact Real.cos_zero

/-- Origin of the square boundary. -/
lemma sq_origin : routeOrigin squareBoundary = ⟨0, 0⟩ := rfl

/-- Projection of the square boundary. -/
lemma sq_projected :
    projectedPolygon squareBoundary = [⟨0, 0⟩, ⟨0, sqH⟩, ⟨sqW, sqH⟩, ⟨sqW, 0⟩] := by
  unfold projectedPolygon squareBoundary projectToMeters routeOrigin
  simp only [List.map_cons, List.map_nil, List.headI]
  norm_num [cos_zero_deg, EARTH_RADIUS, sqH, sqW]
  and_intros <;> ring

/-- No margin is applied for `squareOptions`. -/
lemma sq_margin :
    marginPolygon squareBoundary (squareOptions.margin.getD 0) =
      projectedPolygon squareBoundary := by
  have h0 : squareOptions.margin.getD 0 = 0 := rfl
  rw [marginPolygon, h0, if_neg (lt_irrefl 0)]

/-- The rotation angle for `squareOptions` is 0. -/
lemma sq_angle : routeAngleRad squareOptions = 0 := by
  unfold routeAngleRad squareOptions
  norm_num

/-- Rotating by angle 0 is the identity. -/
lemma rotatePoint_zero (p c : PlanarPoint) : rotatePoint p 0 c = p := by
  unfold rotatePoint
  ext <;> simp

/-- The rotated polygon of the square boundary. -/
lemma sq_rotated :
    rotatedPoly squareBoundary squareOptions = [⟨0, 0⟩, ⟨0, sqH⟩, ⟨sqW, sqH⟩, ⟨sqW, 0⟩] := by
  unfold rotatedPoly
  rw [sq_margin, sq_projected, sq_angle]
  simp [rotatePoint_zero]

/-- Bounding box of the projected square. -/
lemma sq_bbox :
    getBoundingBox [⟨0, 0⟩, ⟨0, sqH⟩, ⟨sqW, sqH⟩, ⟨sqW, 0⟩] = ⟨0, 0, sqW, sqH⟩ := by
  unfold getBoundingBox listMin listMax
  simp only [List.map_cons, List.map_nil, List.foldl_cons, List.foldl_nil]
  have hminx : min (min (min (0 : ℝ) 0) sqW) sqW = 0 := by
    rw [min_self, min_eq_left sqW_pos.le, min_eq_left sqW_pos.le]
  have hminy : min (min (min (0 : ℝ) sqH) sqH) 0 = 0 := by
    rw [min_eq_left sqH_pos.le, min_eq_left sqH_pos.le, min_self]
  have hmaxx : max (max (max (0 : ℝ) 0) sqW) sqW = sqW := by
    rw [max_self, max_eq_right sqW_pos.le, max_self]
  have hmaxy : max (max (max (0 : ℝ) sqH) sqH) 0 = sqH := by
    rw [max_eq_right sqH_pos.le, max_self, max_eq_left sqH_pos.le]
  rw [hminx, hminy, hmaxx, hmaxy]

/-- Effective spacing selected by `squareOptions`. -/
lemma sq_spacing : effSpacing squareOptions = 60 * π := rfl

/-- Exactly one scan line fits in the square. -/
lemma sq_count : scanLineCount 0 sqH (60 * π) = 1 := by
  unfold scanLineCount
  rw [if_pos (by positivity)]
  have hq : (sqH - (0 + 60 * π / 2)) / (60 * π) = 978137 / 10800000 := by
    unfold sqH
    field_simp
    ring
  rw [hq]
  have hfl : ⌊(978137 / 10800000 : ℝ)⌋ = 0 := by
    rw [Int.floor_eq_zero_iff]
    constructor <;> norm_num
  rw [hfl]
  rfl

/-- The single scan line crosses the left and right edges of the square. -/
lemma sq_intersections :
    lineIntersections [⟨0, 0⟩, ⟨0, sqH⟩, ⟨sqW, sqH⟩, ⟨sqW, 0⟩] (30 * π) = [0, sqW] := by
  have h30pos : (0 : ℝ) ≤ 30 * π := by positivity
  have h30H := thirtyPi_lt_sqH
  unfold lineIntersections
  have hrot : ([⟨0, 0⟩, ⟨0, sqH⟩, ⟨sqW, sqH⟩, ⟨sqW, 0⟩] : List PlanarPoint).rotate 1 =
      [⟨0, sqH⟩, ⟨sqW, sqH⟩, ⟨sqW, 0⟩, ⟨0, 0⟩] := rfl
  rw [hrot]
  simp only [List.zip_cons_cons, List.zip_nil_right, List.filterMap_cons]
  rw [if_pos (Or.inl ⟨h30pos, h30H⟩)]
  rw [if_neg (by
    rintro (⟨h, _⟩ | ⟨_, h⟩) <;> exact absurd h (not_le.mpr h30H))]
  rw [if_pos (Or.inr ⟨h30H, h30pos⟩)]
  rw [if_neg (by
    have : ¬(30 * π < (0 : ℝ)) := not_lt.mpr h30pos
    rintro (⟨_, h⟩ | ⟨h, _⟩) <;> exact absurd h this)]
  simp only [List.filterMap_nil]
  norm_num

/-- Waypoints emitted for the single scan line. -/
lemma sq_lineWaypoints :
    lineWaypoints [⟨0, 0⟩, ⟨0, sqH⟩, ⟨sqW, sqH⟩, ⟨sqW, 0⟩] (30 * π) 0 =
      [⟨0, 30 * π⟩, ⟨sqW, 30 * π⟩] := by
  unfold lineWaypoints
  rw [sq_intersections]
  have hsort : List.insertionSort (· ≤ ·) [(0 : ℝ), sqW] = [0, sqW] := by
    simp [List.insertionSort, List.orderedInsert, sqW_pos.le]
  rw [hsort]
  rfl

/-- The full sweep of the square produces two waypoints. -/
lemma sq_scan :
    scanWaypoints [⟨0, 0⟩, ⟨0, sqH⟩, ⟨sqW, sqH⟩, ⟨sqW, 0⟩] (60 * π) =
      [⟨0, 30 * π⟩, ⟨sqW, 30 * π⟩] := by
  unfold scanWaypoints
  rw [sq_bbox]
  simp only
  rw [sq_count, show List.range 1 = [0] from rfl]
  simp only [List.flatMap_cons, List.flatMap_nil, List.append_nil]
  have hcy : (0 : ℝ) + 60 * π / 2 + (0 : ℕ) * (60 * π) = 30 * π := by
    push_cast
    ring
  rw [hcy, sq_lineWaypoints]

/-- Raw waypoints for the square boundary. -/
lemma sq_raw :
    rawWaypoints squareBoundary squareOptions = [⟨0, 30 * π⟩, ⟨sqW, 30 * π⟩] := by
  unfold rawWaypoints
  rw [sq_rotated, sq_spacing, sq_scan]

/-- The optimizer is skipped (only 2 raw waypoints). -/
lemma sq_optimized :
    optimizedWaypoints squareBoundary squareOptions = [⟨0, 30 * π⟩, ⟨sqW, 30 * π⟩] := by
  unfold optimizedWaypoints
  rw [sq_raw, if_neg (by simp)]

/-- Un-rotation (by angle 0) leaves the waypoints unchanged. -/
lemma sq_unrotated :
    unrotatedWaypoints squareBoundary squareOptions = [⟨0, 30 * π⟩, ⟨sqW, 30 * π⟩] := by
  unfold unrotatedWaypoints
  rw [sq_optimized, sq_angle]
  simp [rotatePoint_zero]

/-- `toFixed(7)` value of the unprojected scan-line latitude. -/
lemma sq_lat_round : toFixedVal 7 (30 * π / EARTH_RADIUS * 180 / π) = 4233 / 5000000 := by
  have hval : 30 * π / EARTH_RADIUS * 180 / π = 5400 / 6378137 := by
    rw [EARTH_RADIUS]
    field_simp
    ring
  rw [hval, toFixedVal, round_eq]
  have hfl : ⌊(5400 / 6378137 : ℝ) * 10 ^ 7 + 1 / 2⌋ = 8466 := by
    rw [Int.floor_eq_iff]
    constructor <;> norm_num
  rw [hfl]
  norm_num

/-- `toFixed(7)` value of longitude 0. -/
lemma sq_lng0_round : toFixedVal 7 (0 : ℝ) = 0 := by
  rw [toFixedVal]
  simp

/-- `toFixed(7)` value of the unprojected right-edge longitude. -/
lemma sq_lngW_round : toFixedVal 7 (sqW / EARTH_RADIUS * 180 / π) = 1 / 5000 := by
  have hval : sqW / EARTH_RADIUS * 180 / π = 0.0002 := by
    rw [EARTH_RADIUS]
    unfold sqW
    field_simp
    ring
  rw [hval, toFixedVal, round_eq]
  have hfl : ⌊(0.0002 : ℝ) * 10 ^ 7 + 1 / 2⌋ = 2000 := by
    rw [Int.floor_eq_iff]
    constructor <;> norm_num
  rw [hfl]
  norm_num

/-- Full evaluation of the generator on the square boundary. -/
lemma sq_eval_route :
    generatePolygonRoute squareBoundary squareOptions = .route [wpA, wpB] := by
  unfold generatePolygonRoute
  rw [if_neg earthRadius_guard_false]
  rw [if_neg (by norm_num [squareBoundary])]
  rw [if_neg (by rintro ⟨h, _⟩; norm_num [squareOptions] at h)]
  rw [if_neg (by
    rintro ⟨h6, _⟩
    rw [sq_spacing] at h6
    exact absurd h6 (not_le.mpr (by positivity)))]
  congr 1
  rw [sq_unrotated, sq_origin]
  have hh : squareOptions.height.getD 50 = 50 := rfl
  have hs : squareOptions.speed.getD 5 = 5 := rfl
  rw [hh, hs]
  unfold attachGeo unprojectFromMeters
  simp only [List.mapIdx_cons, List.mapIdx_nil]
  unfold wpA wpB
  simp only [List.cons.injEq, Waypoint.mk.injEq]
  norm_num
  exact ⟨⟨sq_lat_round, sq_lng0_round⟩, sq_lat_round, sq_lngW_round⟩

/-- C8 witness: the second generated waypoint of the square route has
index 1, the default height 50 and speed 5, and 7-decimal lat/lng. -/
theorem generated_waypoint_fields_witness :
    generatePolygonRoute squareBoundary squareOptions = GenResult.route [wpA, wpB]
    ∧ (([wpA, wpB] : List Waypoint).get ⟨1, by simp⟩).index = some 1
    ∧ (([wpA, wpB] : List Waypoint).get ⟨1, by simp⟩).height =
        some (squareOptions.height.getD 50)
    ∧ (([wpA, wpB] : List Waypoint).get ⟨1, by simp⟩).speed =
        some (squareOptions.speed.getD 5)
    ∧ (∃ m : ℤ, (([wpA, wpB] : List Waypoint).get ⟨1, by simp⟩).lat = m / 10 ^ 7)
    ∧ ∃ m : ℤ, (([wpA, wpB] : List Waypoint).get ⟨1, by simp⟩).lng = m / 10 ^ 7 :=
  ⟨sq_eval_route,
   generated_waypoint_fields squareBoundary squareOptions [wpA, wpB] sq_eval_route 1 (by simp)⟩
